import Mathlib

/-
Shallow embedding of the reporting core of `src/app.py` (BudgetBee, a
rule-based personal-finance chatbot).

Modelling conventions:
* a calendar date is a day count (`ℤ`, proleptic Gregorian, via the standard
  days-from-civil algorithm); only differences and comparisons of dates are
  used by the program;
* a monetary amount is an exact rational (`ℚ`);
* a raised Python exception is `Option.none` (inside a generator) or
  `Except.error` (during CSV parsing);
* a pandas dataframe of transactions is a `List Tx`; a raw CSV table is a
  `CsvTable` (column list plus rows of optional cells, `none` = empty cell,
  i.e. pandas `NaN`).
-/

/-- A cleaned transaction record, one dataframe row after ingest
(`src/app.py`, data model of `load_sample_transactions` and
`parse_transactions`).  `amount` is signed: positive = expense, negative =
saving or investment. -/
structure Tx where
  date : ℤ
  category : String
  amount : ℚ
  description : String
  deriving DecidableEq

/-- Day count of a civil date (proleptic Gregorian calendar), the standard
days-from-civil algorithm.  Models the day axis of `pandas.Timestamp`. -/
def daysFromCivil (y m d : ℤ) : ℤ :=
  let y2 := if m ≤ 2 then y - 1 else y
  let era := Int.fdiv y2 400
  let yoe := y2 - era * 400
  let mp := (m + 9) % 12
  let doy := Int.fdiv (153 * mp + 2) 5 + d - 1
  let doe := yoe * 365 + Int.fdiv yoe 4 - Int.fdiv yoe 100 + doy
  era * 146097 + doe - 719468

/-- `load_sample_transactions` from `src/app.py` (lines 21 to 34): the fixed
8-row sample dataset, dated August 2025. -/
def load_sample_transactions : List Tx :=
  [ ⟨daysFromCivil 2025 8 1, "Food", 250, "Lunch"⟩,
    ⟨daysFromCivil 2025 8 2, "Transport", 120, "Metro"⟩,
    ⟨daysFromCivil 2025 8 3, "Groceries", 1500, "Weekly groceries"⟩,
    ⟨daysFromCivil 2025 8 5, "Entertainment", 600, "Movie + snacks"⟩,
    ⟨daysFromCivil 2025 8 7, "Subscriptions", 299, "Music"⟩,
    ⟨daysFromCivil 2025 8 10, "Bills", 2200, "Electricity"⟩,
    ⟨daysFromCivil 2025 8 15, "Savings", -5000, "Monthly saving transfer"⟩,
    ⟨daysFromCivil 2025 8 20, "Investment", -2000, "SIP"⟩ ]

/-- One raw CSV row: an association list from column name to cell content;
a `none` cell models a missing value (pandas `NaN`). -/
abbrev RawRow := List (String × Option String)

/-- Cell of a raw row under a column name (`none` when the column is absent
from the row or the cell is empty). -/
def getCell (r : RawRow) (c : String) : Option String :=
  match r.find? (fun p => p.1 == c) with
  | some p => p.2
  | none => none

/-- A raw CSV table as produced by `pd.read_csv`: the column list and the
data rows. -/
structure CsvTable where
  cols : List String
  rows : List RawRow

/-- Value of a run of decimal digit characters. -/
def digitsToNat (s : List Char) : Nat :=
  s.foldl (fun n c => 10 * n + (c.toNat - 48)) 0

/-- True when the character list is a non-empty run of decimal digits. -/
def isDigits (s : List Char) : Bool :=
  !s.isEmpty && s.all (fun c => c.isDigit)

/-- Number of days of a month in the Gregorian calendar. -/
def daysInMonth (y m : ℤ) : ℤ :=
  if m = 2 then (if y % 4 = 0 ∧ (y % 100 ≠ 0 ∨ y % 400 = 0) then 29 else 28)
  else if m = 4 ∨ m = 6 ∨ m = 9 ∨ m = 11 then 30 else 31

/-- Splits a character list on a separator character; `cur` is the reversed
current field.  Separators delimit fields, so `n` separators give `n + 1`
fields (possibly empty). -/
def splitOnChar (sep : Char) : List Char → List Char → List (List Char)
  | [], cur => [cur.reverse]
  | c :: cs, cur =>
    if c == sep then cur.reverse :: splitOnChar sep cs []
    else splitOnChar sep cs (c :: cur)

/-- Models `pd.to_datetime` on a single cell, restricted to the ISO
`YYYY-MM-DD` format (the only date format appearing in the repository):
returns the day count, or `none` when the string is not a valid date. -/
def parseDate (s : String) : Option ℤ :=
  match splitOnChar '-' s.data [] with
  | [ys, ms, ds] =>
    if isDigits ys && isDigits ms && isDigits ds then
      let y : ℤ := digitsToNat ys
      let m : ℤ := digitsToNat ms
      let d : ℤ := digitsToNat ds
      if 1 ≤ m ∧ m ≤ 12 ∧ 1 ≤ d ∧ d ≤ daysInMonth y m then
        some (daysFromCivil y m d)
      else none
    else none
  | _ => none

/-- Value of an unsigned decimal literal, as an exact rational. -/
def parseUnsigned (cs : List Char) : Option ℚ :=
  match splitOnChar '.' cs [] with
  | [ip] => if isDigits ip then some ((digitsToNat ip : ℤ) : ℚ) else none
  | [ip, fp] =>
    if isDigits ip && isDigits fp then
      some ((digitsToNat ip : ℚ) + (digitsToNat fp : ℚ) / ((10 : ℚ) ^ fp.length))
    else none
  | _ => none

/-- Models `pd.to_numeric` coercion of a single cell, restricted to plain
signed decimal literals: the exact rational value, or `none` when the string
is not numeric. -/
def parseAmount (s : String) : Option ℚ :=
  match s.toList with
  | '-' :: rest => (parseUnsigned rest).map (fun q => -q)
  | '+' :: rest => parseUnsigned rest
  | cs => parseUnsigned cs

/-- The two failure modes of `parse_transactions`: the `ValueError` raised
when a required column is missing (the `SchemaError` of the spec), and the
exception raised by `pd.to_datetime` on a non-null unparsable date cell. -/
inductive ParseErr where
  | schemaErr
  | dateErr
  deriving DecidableEq

/-- The required CSV columns checked by `parse_transactions`. -/
def requiredCols : List String := ["date", "category", "amount"]

/-- Conversion of one raw row to a transaction, after column coercion:
the row survives `dropna(subset=..)` exactly when its date coerced
(non-`NaT`) and its amount coerced (non-`NaN`).  A missing category or
description cell is kept as the empty string (no claim involves a missing
category value). -/
def rowToTx (r : RawRow) : Option Tx :=
  match (getCell r "date").bind parseDate, (getCell r "amount").bind parseAmount with
  | some d, some a =>
    some ⟨d, (getCell r "category").getD "", a, (getCell r "description").getD ""⟩
  | _, _ => none

/-- `parse_transactions` from `src/app.py` (lines 36 to 43).  The column-wise
pandas pipeline is translated row-wise: the required-column check raises
`schemaErr`; `pd.to_datetime` (default `errors` mode) raises `dateErr` as
soon as any non-null date cell fails to parse; otherwise amounts are coerced
with `errors=coerce` and `dropna` keeps exactly the rows whose date and
amount both coerced. -/
def parse_transactions (t : CsvTable) : Except ParseErr (List Tx) :=
  if ∀ c ∈ requiredCols, c ∈ t.cols then
    if t.rows.any (fun r => ((getCell r "date").map (fun s => (parseDate s).isNone)).getD false) then
      Except.error ParseErr.dateErr
    else
      Except.ok (t.rows.filterMap rowToTx)
  else
    Except.error ParseErr.schemaErr

/-- The most-recent-30-day window of `summarize_budget` (`src/app.py`,
lines 48 to 49): all rows with date at least the maximum date minus 30 days;
when that subset is empty the full set is used instead. -/
def recent_window (ts : List Tx) : List Tx :=
  match (ts.map Tx.date).max? with
  | none => ts
  | some mx =>
    let recent := ts.filter (fun t => decide (mx - 30 ≤ t.date))
    if recent.isEmpty then ts else recent

/-- Sum of the positive amounts of a transaction list (`src/app.py` line 50,
the spending total of the window). -/
def spentOf (ts : List Tx) : ℚ :=
  ((ts.filter (fun t => decide (0 < t.amount))).map Tx.amount).sum

/-- Negated sum of the negative amounts of a transaction list (`src/app.py`
line 51, the savings total of the window). -/
def savedOf (ts : List Tx) : ℚ :=
  -(((ts.filter (fun t => decide (t.amount < 0))).map Tx.amount).sum)

/-- Adds one amount to the running per-category association list. -/
def addToGroup (acc : List (String × ℚ)) (c : String) (a : ℚ) : List (String × ℚ) :=
  match acc with
  | [] => [(c, a)]
  | (c2, s) :: rest =>
    if c2 = c then (c2, s + a) :: rest else (c2, s) :: addToGroup rest c a

/-- Models `groupby` on category followed by `sum` on amount
(`src/app.py` lines 52 and 69): one entry per distinct category, holding the
signed sum of its amounts.  Entries are accumulated in first-occurrence order
(pandas emits group keys sorted; no claim depends on the key order, which is
only an intermediate stage before value sorting). -/
def group_sum_by_category (ts : List Tx) : List (String × ℚ) :=
  ts.foldl (fun acc t => addToGroup acc t.category t.amount) []

/-- Models `sort_values(ascending=False)` on a category-to-value series.
Pandas uses an unstable quicksort, so the order of equal values is
unspecified there; no claim depends on the order of ties. -/
def sortValsDesc (l : List (String × ℚ)) : List (String × ℚ) :=
  List.insertionSort (fun a b => b.2 ≤ a.2) l

/-- The numeric content of the Budget Summary report built by
`summarize_budget` (`src/app.py` lines 53 to 64); the surrounding markdown
and currency formatting is presentation only. -/
structure BudgetReport where
  periodStart : ℤ
  periodEnd : ℤ
  totalSpent : ℚ
  totalSaved : ℚ
  topExpense : List (String × ℚ)
  avgDaily : ℚ
  suggestedMonthly : ℚ
  deriving DecidableEq

/-- Output of `summarize_budget`: the placeholder message for empty input,
or a report. -/
inductive BudgetOut where
  | message (s : String)
  | report (r : BudgetReport)
  deriving DecidableEq

/-- `summarize_budget` from `src/app.py` (lines 45 to 65).  The `none` result
models an uncaught pandas failure (aggregation over an empty frame); the
safety claim proves it never occurs. -/
def summarize_budget (ts : List Tx) : Option BudgetOut :=
  if ts.isEmpty then some (BudgetOut.message "No transactions to summarize.")
  else
    let recent := recent_window ts
    match (recent.map Tx.date).max?, (recent.map Tx.date).min? with
    | some mx, some mn =>
      let total_spent := spentOf recent
      let by_cat := sortValsDesc (group_sum_by_category recent)
      let wd : ℤ := mx - mn
      some (BudgetOut.report
        { periodStart := mn
          periodEnd := mx
          totalSpent := total_spent
          totalSaved := savedOf recent
          topExpense := (by_cat.filter (fun p => decide (0 < p.2))).take 5
          avgDaily := total_spent / ((max 1 wd : ℤ) : ℚ)
          suggestedMonthly := total_spent * 30 / ((max 1 wd : ℤ) : ℚ) * (9 / 10) })
    | _, _ => none

/-- User profile; only `user_type` is read by the reporting core
(`profile.get` in `src/app.py`), so the other fields are omitted.  `none`
models an absent `user_type` key. -/
structure Profile where
  user_type : Option String
  deriving DecidableEq

/-- The numeric content of the Spending Insights report built by
`generate_spending_insights` (`src/app.py` lines 67 to 86): the top three
categories by absolute sum with their rounded percentages, the threshold
advisory lines, and the profile-conditioned closing tip. -/
structure InsightsReport where
  top : List (String × ℚ)
  topPct : List ℚ
  advisories : List String
  closingTip : String
  deriving DecidableEq

/-- Output of `generate_spending_insights`: the placeholder message for
empty input, or a report. -/
inductive InsightsOut where
  | message (s : String)
  | report (r : InsightsReport)
  deriving DecidableEq

/-- Value of a category in a category-to-value series, `none` when absent. -/
def catLookup (l : List (String × ℚ)) (c : String) : Option ℚ :=
  (l.find? (fun p => p.1 == c)).map (fun p => p.2)

/-- Models the guard `c in series.index and series[c] > thr` of
`src/app.py` lines 76, 78 and 80. -/
def catExceeds (l : List (String × ℚ)) (c : String) (thr : ℚ) : Bool :=
  match catLookup l c with
  | some v => decide (thr < v)
  | none => false

/-- Models pandas `round(1)` (one decimal place).  Pandas rounds halves to
even while Mathlib `round` rounds halves up; no claim exercises a tie. -/
def round1 (q : ℚ) : ℚ := ((round (q * 10) : ℤ) : ℚ) / 10

/-- `generate_spending_insights` from `src/app.py` (lines 67 to 86).  Like
`summarize_budget`, the result is wrapped in `Option` with `none` modelling
an uncaught failure; here every branch is defined. -/
def generate_spending_insights (ts : List Tx) (p : Profile) : Option InsightsOut :=
  if ts.isEmpty then some (InsightsOut.message "No transactions to analyze.")
  else
    let by_cat := sortValsDesc ((group_sum_by_category ts).map (fun q => (q.1, |q.2|)))
    let top := by_cat.take 3
    let total := (ts.map (fun t => |t.amount|)).sum
    some (InsightsOut.report
      { top := top
        topPct := top.map (fun q => round1 (q.2 / total * 100))
        advisories :=
          (if catExceeds by_cat "Subscriptions" 500 then
            ["- Consider reviewing unused subscriptions."] else []) ++
          (if catExceeds by_cat "Food" 2000 then
            ["- Set weekly limits for dining out."] else []) ++
          (if catExceeds by_cat "Transport" 1000 then
            ["- Explore travel cards or carpooling."] else [])
        closingTip :=
          if p.user_type = some "Student" then
            "- Build emergency buffer (2k-10k)."
          else
            "- Automate savings and tax-saving investments." })

/-- `generate_tax_guidance` from `src/app.py` (lines 88 to 96), as the list
of advice lines it joins.  Currency and dash glyphs of the source are
rendered in plain ASCII. -/
def generate_tax_guidance (p : Profile) : List String :=
  ["**Tax Guidance (general educational):**"] ++
  (if p.user_type = some "Student" then
    ["- Check filing threshold for part-time income.",
     "- Keep educational expense receipts."]
  else
    ["- Track salary components & use standard deductions.",
     "- Save proofs for investments (PPF, ELSS, insurance)."]) ++
  ["- Consult a tax professional for accuracy."]

/-- Greedy line filling over a word list: accumulates words into the current
line while it stays within the width, emitting finished lines. -/
def fillWords (width : Nat) : List String → String → List String
  | [], cur => if cur = "" then [] else [cur]
  | w :: ws, cur =>
    if cur = "" then fillWords width ws w
    else if cur.length + 1 + w.length ≤ width then fillWords width ws (cur ++ " " ++ w)
    else cur :: fillWords width ws w

/-- Splits a character list on whitespace runs, returning the non-empty
words; `cur` is the reversed word being accumulated. -/
def splitWsAux : List Char → List Char → List (List Char)
  | [], cur => if cur.isEmpty then [] else [cur.reverse]
  | c :: cs, cur =>
    if c.isWhitespace then
      (if cur.isEmpty then splitWsAux cs [] else cur.reverse :: splitWsAux cs [])
    else splitWsAux cs (c :: cur)

/-- The whitespace-separated words of a string. -/
def wordsOf (text : String) : List String :=
  (splitWsAux text.data []).map (fun w => (⟨w⟩ : String))

/-- Models `textwrap.fill(text, width)` in its default mode: whitespace runs
collapse to single separators and words are greedily packed into lines of at
most `width` characters. -/
def textwrapFill (text : String) (width : Nat) : String :=
  String.intercalate "\n" (fillWords width (wordsOf text) "")

/-- The Simple greeting of `format_response_for_tone` (`src/app.py`
line 101). -/
def simpleGreeting : String := "Hey! Here\x27s a simple version:\n\n"

/-- The Detailed greeting of `format_response_for_tone` (`src/app.py`
line 101); the em dash of the source is rendered as a plain dash. -/
def detailedGreeting : String := "Hello - advisory:\n\n"

/-- `format_response_for_tone` from `src/app.py` (lines 98 to 102).  Note
that only here an absent `user_type` defaults to Student, via
`profile.get` with a default value. -/
def format_response_for_tone (text : String) (p : Profile) (complexity : String) : String :=
  let user_type := p.user_type.getD "Student"
  let c := if complexity = "Auto" then
    (if user_type = "Student" then "Simple" else "Detailed") else complexity
  (if c = "Simple" then simpleGreeting else detailedGreeting) ++ textwrapFill text 80

/-- Models Python `str.lower()`: character-wise lower-casing (ASCII case
mapping, which covers every message the program matches on). -/
def strToLower (s : String) : String :=
  ⟨s.data.map Char.toLower⟩

/-- True when `needle` starts the list `hay`. -/
def seqStartsWith : List Char → List Char → Bool
  | [], _ => true
  | _ :: _, [] => false
  | a :: as, b :: bs => a == b && seqStartsWith as bs

/-- True when `needle` occurs contiguously inside `hay`; models the Python
substring test `needle in hay`. -/
def seqContains (needle : List Char) : List Char → Bool
  | [] => needle.isEmpty
  | b :: bs => seqStartsWith needle (b :: bs) || seqContains needle bs

/-- Substring membership on strings (Python `needle in hay`). -/
def strContains (hay needle : String) : Bool :=
  seqContains needle.toList hay.toList

/-- The five dispatch targets of `local_ai_response`. -/
inductive Intent where
  | budgetSummary
  | spendingInsights
  | taxGuidance
  | investTips
  | defaultHelp
  deriving DecidableEq

/-- The intent selection of `local_ai_response` (`src/app.py` lines 104 to
110): lower-case the message, then first match in the fixed keyword order. -/
def route (msg : String) : Intent :=
  let m := strToLower msg
  if strContains m "budget" then Intent.budgetSummary
  else if ["spend", "insights", "save"].any (fun k => strContains m k) then Intent.spendingInsights
  else if strContains m "tax" then Intent.taxGuidance
  else if ["invest", "sip"].any (fun k => strContains m k) then Intent.investTips
  else Intent.defaultHelp

/-- The possible replies of `local_ai_response`, tagged by the generator
that produced them. -/
inductive Response where
  | budget (o : Option BudgetOut)
  | insights (o : Option InsightsOut)
  | tax (lines : List String)
  | invest (txt : String)
  | help (txt : String)
  deriving DecidableEq

/-- The static investment-tips text (`src/app.py` line 109). -/
def investTipsText : String :=
  "General investment advice:\n- Emergency fund\n- Diversified equity/index funds\n- Short-term: liquid funds or FDs"

/-- The static help message (`src/app.py` line 110). -/
def helpText : String :=
  "I can assist with budget, spending insights, tax basics, or investment tips."

/-- `local_ai_response` from `src/app.py` (lines 104 to 110). -/
def local_ai_response (msg : String) (p : Profile) (ts : List Tx) : Response :=
  let m := strToLower msg
  if strContains m "budget" then Response.budget (summarize_budget ts)
  else if ["spend", "insights", "save"].any (fun k => strContains m k) then
    Response.insights (generate_spending_insights ts p)
  else if strContains m "tax" then Response.tax (generate_tax_guidance p)
  else if ["invest", "sip"].any (fun k => strContains m k) then Response.invest investTipsText
  else Response.help helpText

/-- The generator invoked for each intent; `local_ai_response` is proved to
agree with `dispatch` composed with `route`. -/
def dispatch (i : Intent) (p : Profile) (ts : List Tx) : Response :=
  match i with
  | Intent.budgetSummary => Response.budget (summarize_budget ts)
  | Intent.spendingInsights => Response.insights (generate_spending_insights ts p)
  | Intent.taxGuidance => Response.tax (generate_tax_guidance p)
  | Intent.investTips => Response.invest investTipsText
  | Intent.defaultHelp => Response.help helpText

/-- Maximum date of the reporting window (`recent['date'].max()` in
`src/app.py` line 61), with an irrelevant default for empty input. -/
def windowMaxDate (ts : List Tx) : ℤ :=
  (((recent_window ts).map Tx.date).max?).getD 0

/-- Minimum date of the reporting window (`recent['date'].min()` in
`src/app.py` line 61), with an irrelevant default for empty input. -/
def windowMinDate (ts : List Tx) : ℤ :=
  (((recent_window ts).map Tx.date).min?).getD 0

/-- Number of days spanned by the reporting window,
`(recent['date'].max() - recent['date'].min()).days`. -/
def windowDays (ts : List Tx) : ℤ :=
  windowMaxDate ts - windowMinDate ts

/-- Total spend of the reporting window: the spending total that the claims
about the Budget Summary formulas refer to. -/
def totalSpentOf (ts : List Tx) : ℚ :=
  spentOf (recent_window ts)

/-- The suggested-monthly-budget formula exactly as the claim words it:
total spend times 30 divided by the window-day count (with no `max 1`
guard) times `0.9`.  Division by zero follows the Lean convention
`q / 0 = 0`.  Stated only to be compared with what `summarize_budget`
actually computes. -/
def claimSuggestedMonthly (ts : List Tx) : ℚ :=
  totalSpentOf ts * 30 / ((windowDays ts : ℤ) : ℚ) * (9 / 10)

/-- A profile whose `user_type` key is absent. -/
def noTypeProfile : Profile := ⟨none⟩

/-- A one-transaction dataset: its reporting window spans zero days. -/
def singleTxList : List Tx := [⟨daysFromCivil 2025 8 1, "Misc", 100, ""⟩]

/-- A CSV table with the `category` column missing. -/
def tblNoCategory : CsvTable :=
  { cols := ["date", "amount"]
    rows := [[("date", some "2025-08-01"), ("amount", some "250")]] }

/-- A CSV table with all required columns where the second row has an
unparsable `amount` cell. -/
def tblBadAmount : CsvTable :=
  { cols := ["date", "category", "amount"]
    rows :=
      [[("date", some "2025-08-01"), ("category", some "Food"), ("amount", some "250")],
       [("date", some "2025-08-02"), ("category", some "Misc"), ("amount", some "oops")],
       [("date", some "2025-08-03"), ("category", some "Bills"), ("amount", some "12.5")]] }

/-- A CSV table with all required columns where the second row has a
non-null but unparsable `date` cell. -/
def tblBadDate : CsvTable :=
  { cols := ["date", "category", "amount"]
    rows :=
      [[("date", some "2025-08-01"), ("category", some "Food"), ("amount", some "250")],
       [("date", some "notadate"), ("category", some "Misc"), ("amount", some "10")]] }

/-- A CSV table with all required columns where the second row has an empty
(`NaN`) `date` cell. -/
def tblNullDate : CsvTable :=
  { cols := ["date", "category", "amount"]
    rows :=
      [[("date", some "2025-08-01"), ("category", some "Food"), ("amount", some "250")],
       [("date", none), ("category", some "Misc"), ("amount", some "10")]] }

/-! Helper lemmas shared between the claim theorems. -/

instance : IsTotal (String × ℚ) (fun a b => b.2 ≤ a.2) :=
  ⟨fun a b => le_total b.2 a.2⟩

instance : IsTrans (String × ℚ) (fun a b => b.2 ≤ a.2) :=
  ⟨fun _ _ _ h1 h2 => le_trans h2 h1⟩

theorem recent_window_ne_nil {ts : List Tx} (h : ts ≠ []) : recent_window ts ≠ [] := by
  unfold recent_window
  cases hmax : (ts.map Tx.date).max? with
  | none => exact h
  | some mx =>
    by_cases he : (ts.filter (fun t => decide (mx - 30 ≤ t.date))).isEmpty
    · simp only [he, if_true]
      exact h
    · simp only [he, Bool.false_eq_true, if_false]
      intro hc
      rw [hc] at he
      simp at he

theorem summarize_budget_of_ne_nil {ts : List Tx} (h : ts ≠ []) :
    summarize_budget ts = some (BudgetOut.report
      { periodStart := windowMinDate ts
        periodEnd := windowMaxDate ts
        totalSpent := totalSpentOf ts
        totalSaved := savedOf (recent_window ts)
        topExpense :=
          ((sortValsDesc (group_sum_by_category (recent_window ts))).filter
            (fun p => decide (0 < p.2))).take 5
        avgDaily := totalSpentOf ts / ((max 1 (windowDays ts) : ℤ) : ℚ)
        suggestedMonthly :=
          totalSpentOf ts * 30 / ((max 1 (windowDays ts) : ℤ) : ℚ) * (9 / 10) }) := by
  obtain ⟨a, l, hal⟩ := List.exists_cons_of_ne_nil (recent_window_ne_nil h)
  have hne : ts.isEmpty = false := by
    cases ts with
    | nil => exact absurd rfl h
    | cons x xs => rfl
  unfold summarize_budget windowDays windowMinDate windowMaxDate totalSpentOf
  simp only [hne, Bool.false_eq_true, if_false, hal, List.map_cons, List.max?, List.min?,
    Option.getD_some]

/-- Evaluation of the Budget Summary on the sample dataset. -/
theorem sample_budget_eval :
    summarize_budget load_sample_transactions = some (BudgetOut.report
      ⟨20301, 20320, 4969, 7000,
       [("Bills", 2200), ("Groceries", 1500), ("Entertainment", 600),
        ("Subscriptions", 299), ("Food", 250)],
       4969 / 19, 134163 / 19⟩) := by
  have e1 : daysFromCivil 2025 8 1 = 20301 := by decide
  have e2 : daysFromCivil 2025 8 2 = 20302 := by decide
  have e3 : daysFromCivil 2025 8 3 = 20303 := by decide
  have e4 : daysFromCivil 2025 8 5 = 20305 := by decide
  have e5 : daysFromCivil 2025 8 7 = 20307 := by decide
  have e6 : daysFromCivil 2025 8 10 = 20310 := by decide
  have e7 : daysFromCivil 2025 8 15 = 20315 := by decide
  have e8 : daysFromCivil 2025 8 20 = 20320 := by decide
  norm_num [summarize_budget, load_sample_transactions, recent_window, spentOf, savedOf,
    group_sum_by_category, addToGroup, sortValsDesc, List.insertionSort, List.orderedInsert,
    List.max?, List.min?, e1, e2, e3, e4, e5, e6, e7, e8, max_def, min_def]

/-- Evaluation of the Spending Insights on the sample dataset, for an
arbitrary profile. -/
theorem sample_insights_eval (p : Profile) :
    generate_spending_insights load_sample_transactions p = some (InsightsOut.report
      ⟨[("Savings", 5000), ("Bills", 2200), ("Investment", 2000)],
       [209 / 5, 92 / 5, 167 / 10], [],
       if p.user_type = some "Student" then "- Build emergency buffer (2k-10k)."
       else "- Automate savings and tax-saving investments."⟩) := by
  norm_num [generate_spending_insights, load_sample_transactions,
    group_sum_by_category, addToGroup, sortValsDesc, List.insertionSort, List.orderedInsert,
    catExceeds, catLookup, List.find?, round1, round_eq]
  decide

/-! The claim theorems. -/

/-- Claim C1: the most-recent-30-day window computed for the Budget Summary
(all rows with date at least the maximum date minus 30 days, falling back to
the full set when that subset is empty) is empty exactly when the input
transaction set is empty; every non-empty set yields a non-empty window. -/
theorem C1_recent_window_empty_iff (ts : List Tx) :
    recent_window ts = [] ↔ ts = [] := by
  constructor
  · intro h
    by_contra hne
    exact recent_window_ne_nil hne h
  · intro h
    subst h
    rfl

/-- Claim C5: on the fixed 8-row sample dataset (August 2025) the Budget
Summary computes total spend 4969 (sum of the positive amounts in the
window) and total saved 7000 (negated sum of the negative amounts). -/
theorem C5_sample_budget_totals :
    ∃ r, summarize_budget load_sample_transactions = some (BudgetOut.report r) ∧
      r.totalSpent = 4969 ∧ r.totalSaved = 7000 :=
  ⟨_, sample_budget_eval, rfl, rfl⟩

/-- Claim C6: Spending Insights ranks categories by the absolute value of
their signed per-category sum, descending, and on the sample dataset the
top three are, in order, Savings 5000, Bills 2200, Investment 2000. -/
theorem C6_insights_top3 :
    (∀ p, ∃ r, generate_spending_insights load_sample_transactions p =
        some (InsightsOut.report r) ∧
      r.top = [("Savings", 5000), ("Bills", 2200), ("Investment", 2000)]) ∧
    (∀ ts p r, generate_spending_insights ts p = some (InsightsOut.report r) →
      List.Sorted (fun a b => b.2 ≤ a.2) r.top) := by
  constructor
  · intro p
    exact ⟨_, sample_insights_eval p, rfl⟩
  · intro ts p r hr
    unfold generate_spending_insights at hr
    by_cases he : ts.isEmpty
    · simp [he] at hr
    · simp only [he, Bool.false_eq_true, if_false, Option.some.injEq] at hr
      cases hr
      exact List.Pairwise.sublist (List.take_sublist _ _)
        (List.sorted_insertionSort _ _)

/-- Witness for C6: the sorted-ranking part applied to the sample dataset. -/
theorem C6_insights_top3_witness :
    List.Sorted (fun (a b : String × ℚ) => b.2 ≤ a.2)
      [("Savings", (5000 : ℚ)), ("Bills", 2200), ("Investment", 2000)] := by
  obtain ⟨r, hr, htop⟩ := C6_insights_top3.1 noTypeProfile
  have hs := C6_insights_top3.2 _ _ _ hr
  rwa [htop] at hs

/-- Claim C7 counterexample: on a one-transaction dataset the reporting
window spans zero days.  `summarize_budget` computes the suggested monthly
budget as `100 * 30 / max 1 0 * 0.9 = 2700`, while the formula stated in
the claim divides by the window-day count itself, which is zero, so the
claimed formula does not describe the code there. -/
theorem C7_counterexample :
    summarize_budget singleTxList = some (BudgetOut.report
      ⟨20301, 20301, 100, 0, [("Misc", 100)], 100, 2700⟩) ∧
    claimSuggestedMonthly singleTxList = 0 ∧
    (2700 : ℚ) ≠ claimSuggestedMonthly singleTxList := by
  have e1 : daysFromCivil 2025 8 1 = 20301 := by decide
  refine ⟨?_, ?_, ?_⟩
  · norm_num [summarize_budget, singleTxList, recent_window, spentOf, savedOf,
      group_sum_by_category, addToGroup, sortValsDesc, List.insertionSort, List.orderedInsert,
      List.max?, List.min?, e1, max_def, min_def]
  · norm_num [claimSuggestedMonthly, windowDays, windowMaxDate, windowMinDate, totalSpentOf,
      spentOf, recent_window, singleTxList, List.max?, List.min?, e1]
  · norm_num [claimSuggestedMonthly, windowDays, windowMaxDate, windowMinDate, totalSpentOf,
      spentOf, recent_window, singleTxList, List.max?, List.min?, e1]

/-- Claim C7 (amended): for every non-empty transaction set the Budget
Summary computes average daily spend as total spend divided by
`max 1 windowDays`, and suggested monthly budget as total spend times 30
divided by `max 1 windowDays` times 0.9, in exact arithmetic, where
`windowDays` is the number of days spanned by the reporting window. -/
theorem C7_budget_formulas (ts : List Tx) (h : ts ≠ []) :
    ∃ r, summarize_budget ts = some (BudgetOut.report r) ∧
      r.avgDaily = totalSpentOf ts / ((max 1 (windowDays ts) : ℤ) : ℚ) ∧
      r.suggestedMonthly =
        totalSpentOf ts * 30 / ((max 1 (windowDays ts) : ℤ) : ℚ) * (9 / 10) :=
  ⟨_, summarize_budget_of_ne_nil h, rfl, rfl⟩

/-- Witness for C7 (amended): the formulas at the sample dataset. -/
theorem C7_budget_formulas_witness :
    load_sample_transactions ≠ [] ∧
    ∃ r, summarize_budget load_sample_transactions = some (BudgetOut.report r) ∧
      r.avgDaily = totalSpentOf load_sample_transactions /
        ((max 1 (windowDays load_sample_transactions) : ℤ) : ℚ) ∧
      r.suggestedMonthly = totalSpentOf load_sample_transactions * 30 /
        ((max 1 (windowDays load_sample_transactions) : ℤ) : ℚ) * (9 / 10) :=
  ⟨by decide, C7_budget_formulas load_sample_transactions (by decide)⟩

/-- Claim C8: every report generator is total on well-formed input: the
Budget Summary and Spending Insights never hit an undefined case (the
`Option` result is always `some`), on empty input they return their
placeholder messages, and Tax Guidance always produces its fixed non-empty
set of four advice lines. -/
theorem C8_generators_total :
    (∀ ts, (summarize_budget ts).isSome = true) ∧
    (∀ ts p, (generate_spending_insights ts p).isSome = true) ∧
    summarize_budget [] = some (BudgetOut.message "No transactions to summarize.") ∧
    (∀ p, generate_spending_insights [] p =
      some (InsightsOut.message "No transactions to analyze.")) ∧
    (∀ p, (generate_tax_guidance p).length = 4) := by
  refine ⟨?_, ?_, rfl, fun p => rfl, ?_⟩
  · intro ts
    by_cases h : ts = []
    · subst h
      rfl
    · rw [summarize_budget_of_ne_nil h]
      rfl
  · intro ts p
    unfold generate_spending_insights
    by_cases he : ts.isEmpty <;> simp [he]
  · intro p
    unfold generate_tax_guidance
    by_cases h : p.user_type = some "Student" <;> simp [h]

theorem addToGroup_snd_sum (l : List (String × ℚ)) (c : String) (a : ℚ) :
    ((addToGroup l c a).map Prod.snd).sum = (l.map Prod.snd).sum + a := by
  induction l with
  | nil => simp [addToGroup]
  | cons hd tl ih =>
    obtain ⟨c2, s⟩ := hd
    by_cases h : c2 = c
    · simp only [addToGroup, h, if_true, List.map_cons, List.sum_cons]
      ring
    · simp only [addToGroup, h, if_false, List.map_cons, List.sum_cons, ih]
      ring

theorem group_foldl_sum (ts : List Tx) :
    ∀ acc : List (String × ℚ),
      ((ts.foldl (fun acc t => addToGroup acc t.category t.amount) acc).map Prod.snd).sum =
        (acc.map Prod.snd).sum + (ts.map Tx.amount).sum := by
  induction ts with
  | nil =>
    intro acc
    simp
  | cons t ts ih =>
    intro acc
    simp only [List.foldl_cons, ih, addToGroup_snd_sum, List.map_cons, List.sum_cons]
    ring

/-- Claim C9: summing the per-category values of the category grouping over
all categories equals the sum of all transaction amounts: the grouping
neither loses nor double-counts any transaction. -/
theorem C9_group_sum_preserves_total (ts : List Tx) :
    ((group_sum_by_category ts).map Prod.snd).sum = (ts.map Tx.amount).sum := by
  simpa using group_foldl_sum ts []

/-- Claim C4: intent routing lower-cases the message and dispatches by
first-match substring precedence budget, then spend/insights/save, then tax,
then invest/sip, then the static help default; in particular the three
sample inputs route to Budget Summary, Investment Tips and the help message,
and `local_ai_response` agrees with dispatching on the routed intent. -/
theorem C4_intent_routing :
    route "what\x27s my budget and spend" = Intent.budgetSummary ∧
    route "investment sip advice" = Intent.investTips ∧
    route "hello" = Intent.defaultHelp ∧
    (∀ msg p ts, local_ai_response msg p ts = dispatch (route msg) p ts) ∧
    (∀ msg, strContains (strToLower msg) "budget" = true →
      route msg = Intent.budgetSummary) ∧
    (∀ msg, strContains (strToLower msg) "budget" = false →
      (["spend", "insights", "save"].any fun k => strContains (strToLower msg) k) = true →
      route msg = Intent.spendingInsights) ∧
    (∀ msg, strContains (strToLower msg) "budget" = false →
      (["spend", "insights", "save"].any fun k => strContains (strToLower msg) k) = false →
      strContains (strToLower msg) "tax" = true →
      route msg = Intent.taxGuidance) ∧
    (∀ msg, strContains (strToLower msg) "budget" = false →
      (["spend", "insights", "save"].any fun k => strContains (strToLower msg) k) = false →
      strContains (strToLower msg) "tax" = false →
      (["invest", "sip"].any fun k => strContains (strToLower msg) k) = true →
      route msg = Intent.investTips) ∧
    (∀ msg, strContains (strToLower msg) "budget" = false →
      (["spend", "insights", "save"].any fun k => strContains (strToLower msg) k) = false →
      strContains (strToLower msg) "tax" = false →
      (["invest", "sip"].any fun k => strContains (strToLower msg) k) = false →
      route msg = Intent.defaultHelp) := by
  refine ⟨by decide, by decide, by decide, ?_, ?_, ?_, ?_, ?_, ?_⟩
  · intro msg p ts
    unfold local_ai_response dispatch route
    cases h1 : strContains (strToLower msg) "budget" <;>
      cases h2 : (["spend", "insights", "save"].any fun k => strContains (strToLower msg) k) <;>
        cases h3 : strContains (strToLower msg) "tax" <;>
          cases h4 : (["invest", "sip"].any fun k => strContains (strToLower msg) k) <;>
            simp [h1, h2, h3, h4]
  · intro msg h1
    unfold route
    simp [h1]
  · intro msg h1 h2
    unfold route
    simp [h1, h2]
  · intro msg h1 h2 h3
    unfold route
    simp [h1, h2, h3]
  · intro msg h1 h2 h3 h4
    unfold route
    simp [h1, h2, h3, h4]
  · intro msg h1 h2 h3 h4
    unfold route
    simp [h1, h2, h3, h4]

/-- Witness for C4: each precedence rule applied to a concrete message. -/
theorem C4_intent_routing_witness :
    route "my budget" = Intent.budgetSummary ∧
    route "how to save" = Intent.spendingInsights ∧
    route "income tax" = Intent.taxGuidance ∧
    route "start a sip" = Intent.investTips ∧
    route "weather" = Intent.defaultHelp := by
  refine ⟨?_, ?_, ?_, ?_, ?_⟩
  · exact C4_intent_routing.2.2.2.2.1 "my budget" (by decide)
  · exact C4_intent_routing.2.2.2.2.2.1 "how to save" (by decide) (by decide)
  · exact C4_intent_routing.2.2.2.2.2.2.1 "income tax" (by decide) (by decide) (by decide)
  · exact C4_intent_routing.2.2.2.2.2.2.2.1 "start a sip" (by decide) (by decide) (by decide)
      (by decide)
  · exact C4_intent_routing.2.2.2.2.2.2.2.2 "weather" (by decide) (by decide) (by decide)
      (by decide)

/-- Claim C2: parsing a table missing the `category` column fails with the
schema error, and parsing a table with all required columns, whose date
cells are all present and parseable, returns exactly the rows whose amount
cell parses (rows with unparsable amounts dropped, all others kept, in
order). -/
theorem C2_parse_schema_and_amount (t : CsvTable) :
    ("category" ∉ t.cols → parse_transactions t = Except.error ParseErr.schemaErr) ∧
    ((∀ c ∈ requiredCols, c ∈ t.cols) →
     (∀ r ∈ t.rows, ((getCell r "date").bind parseDate).isSome = true) →
     parse_transactions t = Except.ok (t.rows.filterMap rowToTx) ∧
     ∀ r ∈ t.rows,
       ((rowToTx r).isSome = true ↔ ((getCell r "amount").bind parseAmount).isSome = true)) := by
  constructor
  · intro hcat
    unfold parse_transactions
    rw [if_neg]
    intro hall
    exact hcat (hall "category" (by simp [requiredCols]))
  · intro hall hdates
    have hany : (t.rows.any fun r =>
        ((getCell r "date").map (fun s => (parseDate s).isNone)).getD false) = false := by
      simp only [List.any_eq_false]
      intro r hr
      have hd := hdates r hr
      cases hc : getCell r "date" with
      | none =>
        rw [hc] at hd
        simp at hd
      | some s =>
        rw [hc] at hd
        simp only [Option.some_bind] at hd
        simp [hc, Option.isNone_eq_false_iff, Option.isSome_iff_ne_none.mp hd]
    constructor
    · unfold parse_transactions
      rw [if_pos hall, hany]
      simp
    · intro r hr
      have hd := hdates r hr
      obtain ⟨d, hdd⟩ := Option.isSome_iff_exists.mp hd
      unfold rowToTx
      rw [hdd]
      cases ha : (getCell r "amount").bind parseAmount <;> simp [ha]

/-- Witness for C2: a table without a `category` column is rejected with
the schema error, and on a three-row table whose middle row has the
unparsable amount cell `oops`, parsing keeps exactly the cleaned rows and
the middle row is dropped precisely because its amount does not parse. -/
theorem C2_parse_schema_and_amount_witness :
    parse_transactions tblNoCategory = Except.error ParseErr.schemaErr ∧
    parse_transactions tblBadAmount = Except.ok (tblBadAmount.rows.filterMap rowToTx) ∧
    ((rowToTx [("date", some "2025-08-02"), ("category", some "Misc"),
        ("amount", some "oops")]).isSome = true ↔
      ((getCell [("date", some "2025-08-02"), ("category", some "Misc"),
        ("amount", some "oops")] "amount").bind parseAmount).isSome = true) := by
  refine ⟨(C2_parse_schema_and_amount tblNoCategory).1 (by decide), ?_, ?_⟩
  · exact ((C2_parse_schema_and_amount tblBadAmount).2 (by decide) (by decide)).1
  · exact ((C2_parse_schema_and_amount tblBadAmount).2 (by decide) (by decide)).2 _ (by decide)

/-- Claim C3 counterexample: on a table with all required columns whose
second row has the non-null unparsable date cell `notadate`, parsing raises
the date error instead of silently dropping the row, so a row whose date
fails coercion is not silently dropped. -/
theorem C3_counterexample :
    parse_transactions tblBadDate = Except.error ParseErr.dateErr := by
  rfl

/-- Claim C3 (amended): for tables with the required columns, only a row
whose date cell is absent (null) is silently dropped; when every non-null
date cell parses, parsing succeeds and returns the cleaned rows, and a row
with a null date is among the dropped ones.  A non-null date value that
fails coercion instead makes parsing raise an error. -/
theorem C3_null_dates_dropped (t : CsvTable)
    (hcols : ∀ c ∈ requiredCols, c ∈ t.cols)
    (hdates : ∀ r ∈ t.rows,
      ((getCell r "date").map (fun s => (parseDate s).isSome)).getD true = true) :
    parse_transactions t = Except.ok (t.rows.filterMap rowToTx) ∧
    ∀ r ∈ t.rows, getCell r "date" = none → rowToTx r = none := by
  constructor
  · have hany : (t.rows.any fun r =>
        ((getCell r "date").map (fun s => (parseDate s).isNone)).getD false) = false := by
      simp only [List.any_eq_false]
      intro r hr
      have hd := hdates r hr
      cases hc : getCell r "date" with
      | none => simp [hc]
      | some s =>
        rw [hc] at hd
        simp at hd
        simp [hc, Option.isNone_eq_false_iff, Option.isSome_iff_ne_none.mp hd]
    unfold parse_transactions
    rw [if_pos hcols, hany]
    simp
  · intro r hr h0
    unfold rowToTx
    rw [h0]
    rfl

/-- Witness for C3 (amended): on a table whose second row has a null date
cell, parsing succeeds with the cleaned rows and that row maps to no
transaction. -/
theorem C3_null_dates_dropped_witness :
    parse_transactions tblNullDate = Except.ok (tblNullDate.rows.filterMap rowToTx) ∧
    rowToTx [("date", (none : Option String)), ("category", some "Misc"),
      ("amount", some "10")] = none := by
  have h := C3_null_dates_dropped tblNullDate (by decide) (by decide)
  exact ⟨h.1, h.2 _ (by decide) rfl⟩

/-- Claim C10: for a profile with the `user_type` key absent, Spending
Insights and Tax Guidance take their non-Student (Professional-style)
branches, while the tone formatter with complexity `Auto` resolves to
`Simple` and prepends the Student-style greeting, because only the tone
formatter defaults a missing `user_type` to Student. -/
theorem C10_missing_user_type :
    (∃ r, generate_spending_insights load_sample_transactions noTypeProfile =
        some (InsightsOut.report r) ∧
      r.closingTip = "- Automate savings and tax-saving investments.") ∧
    generate_tax_guidance noTypeProfile =
      ["**Tax Guidance (general educational):**",
       "- Track salary components & use standard deductions.",
       "- Save proofs for investments (PPF, ELSS, insurance).",
       "- Consult a tax professional for accuracy."] ∧
    format_response_for_tone "hello" noTypeProfile "Auto" = simpleGreeting ++ "hello" := by
  refine ⟨⟨_, sample_insights_eval noTypeProfile, rfl⟩, rfl, by decide⟩
